import Mathlib

/-!
Verification of the user-service account identity and verification state
machine against its specification.

The repository contains two cooperating code variants:
a snake_case service layer (`src/app/services/user_service.py` together with
the SQLAlchemy model `src/app/models/user.py` and the guard decorators in
`src/app/utils/decorators.py`), and camelCase HTTP route handlers
(`src/app/routes/user_routes.py`, `src/app/routes/internal_routes.py`) that
operate on a camelCase user model.  Both are embedded below.  Datetimes are
modelled as natural numbers ordered like wall-clock instants; the identity
store is a list of records, with commit modelled as replacing the record in
the list.
-/

namespace UserSvc

/-- Account record, translated from `src/app/models/user.py` (`class User`).
The `type` column is the role tier string; optional columns become `Option`.
Timestamps are abstract instants (`Nat`). -/
structure User where
  user_id : Nat
  first_name : String
  last_name : String
  email : String
  password : String
  active : Bool
  email_verified : Bool
  verification_token : Option String
  token_expires_at : Option Nat
  date_joined : Nat
  type : String
  profile_image_url : Option String
deriving Repr, DecidableEq

/-- Commit of a mutated record: the store keeps every row, with the row of
this `user_id` replaced by the mutated object. -/
def replaceUser (users : List User) (u : User) : List User :=
  users.map (fun v => if v.user_id == u.user_id then u else v)

/-- `UserService.get_user_by_id`: `User.query.get(user_id)`. -/
def get_user_by_id (users : List User) (user_id : Nat) : Option User :=
  users.find? (fun u => u.user_id == user_id)

/-- `UserService.get_user_by_email`: `User.query.filter_by(email=email).first()`. -/
def get_user_by_email (users : List User) (email : String) : Option User :=
  users.find? (fun u => u.email == email)

/-- The profile-update request body of `UserService.update_user`: the three
keys the method reads from `data`, each possibly absent. -/
structure UpdateData where
  firstName : Option String
  lastName : Option String
  email : Option String
deriving Repr, DecidableEq

/-- The two name assignments at the top of `UserService.update_user`
(`if 'firstName' in data: ...` and `if 'lastName' in data: ...`). -/
def applyNames (u : User) (d : UpdateData) : User :=
  let u1 := match d.firstName with
    | some f => { u with first_name := f }
    | none => u
  match d.lastName with
  | some l => { u1 with last_name := l }
  | none => u1

/-- `UserService.update_user`.  Returns the committed store together with
the `(user, email_changed)` pair of the source; a missing user yields
`(None, False)` without touching the store, and a duplicate email raises
`ValueError('Email already in use')`, modelled as `Except.error`. -/
def update_user (users : List User) (user_id : Nat) (data : UpdateData) :
    Except String (List User × Option (User × Bool)) :=
  match get_user_by_id users user_id with
  | none => .ok (users, none)
  | some user0 =>
    let user1 := applyNames user0 data
    match data.email with
    | none => .ok (replaceUser users user1, some (user1, false))
    | some new_email =>
      let taken : Bool := match get_user_by_email users new_email with
        | some existing => existing.user_id != user_id
        | none => false
      if taken then .error "Email already in use"
      else if user1.email ≠ new_email then
        let user2 : User := { user1 with
          email := new_email,
          type := if user1.type = "admin" ∨ user1.type = "super_admin"
                  then user1.type else "unverified",
          email_verified := false }
        .ok (replaceUser users user2, some (user2, true))
      else .ok (replaceUser users user1, some (user1, false))

/-- `UserService.verify_email`: sets `email_verified`, promotes
`unverified` to `normal` (preserving other types), clears the token fields
and commits. -/
def verify_email (users : List User) (user_id : Nat) :
    List User × Option User :=
  match get_user_by_id users user_id with
  | none => (users, none)
  | some user =>
    let user1 : User := { user with
      email_verified := true,
      type := if user.type = "unverified" then "normal" else user.type,
      verification_token := none,
      token_expires_at := none }
    (replaceUser users user1, some user1)

/-- `UserService.get_valid_verification_token`: returns `(token, expires_at)`
only when both fields are present and `token_expires_at > now`; otherwise
`(None, None)`. -/
def get_valid_verification_token (users : List User) (user_id : Nat)
    (now : Nat) : Option String × Option Nat :=
  match get_user_by_id users user_id with
  | none => (none, none)
  | some user =>
    match user.verification_token, user.token_expires_at with
    | some tok, some exp =>
      if exp > now then (some tok, some exp) else (none, none)
    | _, _ => (none, none)

/-- `UserService.ban_user`: sets `active = False` and commits.  The method
performs no role check on the target. -/
def ban_user (users : List User) (user_id : Nat) : List User × Option User :=
  match get_user_by_id users user_id with
  | none => (users, none)
  | some user =>
    let user1 : User := { user with active := false }
    (replaceUser users user1, some user1)

/-- `UserService.unban_user`: sets `active = True` and commits. -/
def unban_user (users : List User) (user_id : Nat) :
    List User × Option User :=
  match get_user_by_id users user_id with
  | none => (users, none)
  | some user =>
    let user1 : User := { user with active := true }
    (replaceUser users user1, some user1)

/-- `UserService.promote_to_admin`: sets `type = 'admin'` unconditionally
and commits; the target's current role is not inspected. -/
def promote_to_admin (users : List User) (user_id : Nat) :
    List User × Option User :=
  match get_user_by_id users user_id with
  | none => (users, none)
  | some user =>
    let user1 : User := { user with type := "admin" }
    (replaceUser users user1, some user1)

/-- `UserService.demote_from_admin`: demotes only when `type == 'admin'`;
for any other type (including `super_admin`) it commits nothing and returns
the user unchanged, with no error. -/
def demote_from_admin (users : List User) (user_id : Nat) :
    List User × Option User :=
  match get_user_by_id users user_id with
  | none => (users, none)
  | some user =>
    if user.type = "admin" then
      let user1 : User := { user with type := "normal" }
      (replaceUser users user1, some user1)
    else (users, some user)

/-- `UserService.delete_user`: `False` when the user is absent, raises
`ValueError('Cannot delete super admin')` for a `super_admin` target, and
otherwise removes the row and returns `True`. -/
def delete_user (users : List User) (user_id : Nat) :
    Except String (List User × Bool) :=
  match get_user_by_id users user_id with
  | none => .ok (users, false)
  | some user =>
    if user.type = "super_admin" then .error "Cannot delete super admin"
    else .ok (users.filter (fun v => v.user_id ≠ user_id), true)

/-- `require_admin` from `src/app/utils/decorators.py`: the caller's
`X-User-Type` must be `admin` or `super_admin`. -/
def require_admin (user_type : String) : Bool :=
  user_type == "admin" || user_type == "super_admin"

/-- `require_super_admin` from `src/app/utils/decorators.py`: the caller's
`X-User-Type` must be exactly `super_admin`. -/
def require_super_admin (user_type : String) : Bool :=
  user_type == "super_admin"

/-- Modelled from the spec: the route handler that wires the promote
operation to `UserService.promote_to_admin` is not under `src/`; only the
decorator and the service method are.  Per spec §4.1 the handler admits
only a `super_admin` caller (via `require_super_admin`, returning the
decorator's 403 message otherwise) and then invokes the service method. -/
def promote_route (caller_type : String) (users : List User)
    (user_id : Nat) : Except String (List User × Option User) :=
  if require_super_admin caller_type then .ok (promote_to_admin users user_id)
  else .error "Super admin access required"

/-- Outcome of the spec's `consume` operation of the Verification Token
Manager (spec §4.2). -/
inductive VerifyOutcome where
  | success
  | invalidToken
  | expired
  | alreadyVerified
  | notFound
deriving Repr, DecidableEq

/-- Modelled from the spec: the token-checking `verifyEmail` orchestration
(spec §4.2 `consume`) is not under `src/`; the service layer only holds the
success-path mutator `UserService.verify_email` and the lazy-expiry reader.
Per the spec it succeeds only when the stored token equals the supplied one,
`now < expiresAt`, and `emailVerified` is still false; on success it applies
the source's `verify_email` mutation, and every failure leaves the store
untouched.  The spec fixes no order among the failure checks; expiry is
checked before the already-verified flag (the spec's invariant
`emailVerified = true → no pending token` makes the two orders agree on
invariant-respecting states). -/
def consume_verification (users : List User) (user_id : Nat)
    (supplied : String) (now : Nat) : VerifyOutcome × List User :=
  match get_user_by_id users user_id with
  | none => (.notFound, users)
  | some user =>
    match user.verification_token, user.token_expires_at with
    | some tok, some exp =>
      if tok ≠ supplied then (.invalidToken, users)
      else if ¬ now < exp then (.expired, users)
      else if user.email_verified then (.alreadyVerified, users)
      else (.success, (verify_email users user_id).1)
    | _, _ => (.invalidToken, users)

end UserSvc

namespace Routes

/-- Modelled from the spec: the camelCase user model that the route handlers
in `src/app/routes/user_routes.py` and `src/app/routes/internal_routes.py`
operate on (`userId`, `firstName`, `lastName`, `email`, `userType`,
`isActive`, ...) is not under `src/` — the model file present there is the
snake_case variant.  Fields follow spec §3 and the attributes the handlers
read and write; `emailVerified` is carried per spec §3 (the handlers never
touch it). -/
structure RUser where
  userId : Nat
  firstName : String
  lastName : String
  email : String
  userType : String
  isActive : Bool
  emailVerified : Bool
deriving Repr, DecidableEq

/-- Python `str.lower()` as the handlers apply it to email addresses:
character-wise lowercasing (strict form of `String.toLower`, evaluable by
the kernel). -/
def lower (s : String) : String := ⟨s.data.map Char.toLower⟩

/-- One entry of the module-level dictionary `_email_verification_codes` in
`src/app/routes/user_routes.py`: `{new_email, code, expires_at}`. -/
structure Pending where
  new_email : String
  code : String
  expires_at : Nat
deriving Repr, DecidableEq

/-- The `_email_verification_codes` dictionary, keyed by user id. -/
abbrev Codes := List (Nat × Pending)

/-- Dictionary membership and read: `_email_verification_codes[user_id]`. -/
def lookupCode (codes : Codes) (user_id : Nat) : Option Pending :=
  (codes.find? (fun p => p.1 == user_id)).map (fun p => p.2)

/-- Dictionary deletion: `del _email_verification_codes[user_id]`. -/
def eraseCode (codes : Codes) (user_id : Nat) : Codes :=
  codes.filter (fun p => p.1 != user_id)

/-- Dictionary assignment: `_email_verification_codes[user_id] = {...}`,
overwriting any prior entry for that key. -/
def setCode (codes : Codes) (user_id : Nat) (p : Pending) : Codes :=
  (user_id, p) :: eraseCode codes user_id

/-- `User.query.get(user_id)` in the route handlers. -/
def getById (users : List RUser) (user_id : Nat) : Option RUser :=
  users.find? (fun u => u.userId == user_id)

/-- Commit of a mutated record in the route variant. -/
def replaceR (users : List RUser) (u : RUser) : List RUser :=
  users.map (fun v => if v.userId == u.userId then u else v)

/-- Result of a route handler: the HTTP status, the distinguishing message
or detail string of the response, and the store and code dictionary after
the call. -/
structure RouteResult where
  status : Nat
  detail : String
  users : List RUser
  codes : Codes
deriving Repr, DecidableEq

/-- `request_email_update` from `src/app/routes/user_routes.py`.  External
collaborators are parameters: `valid` is the `validate_email` check,
`gen_code` the value produced by `_generate_verification_code()`, and
`send_fails` tells whether `_send_verification_email` raises.  The handler
stores the pending entry (expiry `now` + 10 minutes) before attempting the
send; on a send failure it returns 500 without deleting the entry. -/
def request_email_update (users : List RUser) (codes : Codes)
    (user_id : Nat) (newEmailOpt : Option String) (valid : String → Bool)
    (gen_code : String) (now : Nat) (send_fails : Bool) : RouteResult :=
  match getById users user_id with
  | none => ⟨404, "User not found", users, codes⟩
  | some user =>
    if ¬ user.isActive then
      ⟨403, "Your account has been suspended", users, codes⟩
    else match newEmailOpt with
    | none => ⟨400, "newEmail is required", users, codes⟩
    | some new_email =>
      if ¬ valid new_email then
        ⟨400, "Invalid email format", users, codes⟩
      else if lower new_email = lower user.email then
        ⟨400, "New email must be different from current email", users, codes⟩
      else if (users.find? (fun u => u.email == new_email)).isSome then
        ⟨409, "Email already in use", users, codes⟩
      else
        let codes1 := setCode codes user_id ⟨new_email, gen_code, now + 600⟩
        if send_fails then
          ⟨500, "Failed to send verification email", users, codes1⟩
        else
          ⟨200, "Verification code sent to new email address", users, codes1⟩

/-- `confirm_email_update` from `src/app/routes/user_routes.py`.  Checks,
in source order: pending entry exists, entry not expired (expired entries
are deleted), stored email matches case-insensitively, stored code matches
exactly, new email still free; then stages `email = new_email` and
`userType = 'unverified'` and commits.  `commit_ok` tells whether
`db.session.commit()` succeeds; on failure the session is rolled back (the
staged record is discarded) and the pending entry is kept. -/
def confirm_email_update (users : List RUser) (codes : Codes)
    (user_id : Nat) (newEmailOpt codeOpt : Option String) (now : Nat)
    (commit_ok : Bool) : RouteResult :=
  match getById users user_id with
  | none => ⟨404, "User not found", users, codes⟩
  | some user =>
    if ¬ user.isActive then
      ⟨403, "Your account has been suspended", users, codes⟩
    else match newEmailOpt, codeOpt with
    | some new_email, some vcode =>
      match lookupCode codes user_id with
      | none =>
        ⟨400, "No pending email update request found", users, codes⟩
      | some stored =>
        if now > stored.expires_at then
          ⟨400, "Verification code has expired", users, eraseCode codes user_id⟩
        else if lower stored.new_email ≠ lower new_email then
          ⟨400, "Email does not match the pending request", users, codes⟩
        else if stored.code ≠ vcode then
          ⟨400, "Invalid verification code", users, codes⟩
        else if (users.find? (fun u => u.email == new_email)).isSome then
          ⟨409, "Email already in use", users, eraseCode codes user_id⟩
        else
          let user1 : RUser :=
            { user with email := new_email, userType := "unverified" }
          if commit_ok then
            ⟨200, "Email updated successfully. Please verify your new email address.",
              replaceR users user1, eraseCode codes user_id⟩
          else
            ⟨500, "Failed to update email", users, codes⟩
    | _, _ =>
      ⟨400, "newEmail and verificationCode are required", users, codes⟩

/-- `verify_user` from `src/app/routes/internal_routes.py`: sets
`userType = 'normal_user'` unconditionally and commits; `commit_ok` tells
whether the commit succeeds (failure rolls back). -/
def verify_user (users : List RUser) (user_id : Nat) (commit_ok : Bool) :
    Nat × List RUser :=
  match getById users user_id with
  | none => (404, users)
  | some user =>
    let user1 : RUser := { user with userType := "normal_user" }
    if commit_ok then (200, replaceR users user1) else (500, users)

end Routes

/-! Concrete fixtures used by witnesses and counterexamples. -/

/-- A `super_admin` account in the service-variant store (shaped like the
seeded super admin). -/
def suUser : UserSvc.User :=
  { user_id := 1, first_name := "Super", last_name := "Admin",
    email := "superadmin@forum.com", password := "h", active := true,
    email_verified := true, verification_token := none,
    token_expires_at := none, date_joined := 0, type := "super_admin",
    profile_image_url := none }

/-- An account holding a verification token that has no expiry timestamp. -/
def tokenUser : UserSvc.User :=
  { user_id := 7, first_name := "Bob", last_name := "Wilson",
    email := "bob.wilson@example.com", password := "h", active := true,
    email_verified := false, verification_token := some "tok",
    token_expires_at := none, date_joined := 0, type := "unverified",
    profile_image_url := none }

/-- An account holding a verification token that expired at instant 10. -/
def expUser : UserSvc.User :=
  { user_id := 9, first_name := "Jane", last_name := "Smith",
    email := "jane.smith@example.com", password := "h", active := true,
    email_verified := false, verification_token := some "tok",
    token_expires_at := some 10, date_joined := 0, type := "unverified",
    profile_image_url := none }

/-- An ordinary account in the service-variant store. -/
def johnUser : UserSvc.User :=
  { user_id := 3, first_name := "John", last_name := "Doe",
    email := "john.doe@example.com", password := "h", active := true,
    email_verified := true, verification_token := none,
    token_expires_at := none, date_joined := 0, type := "normal",
    profile_image_url := none }

/-- An `admin` account in the route-variant store, with a verified email. -/
def adminR : Routes.RUser :=
  { userId := 2, firstName := "Admin", lastName := "User",
    email := "admin@forum.com", userType := "admin", isActive := true,
    emailVerified := true }

/-- An ordinary active account in the route-variant store. -/
def johnR : Routes.RUser :=
  { userId := 3, firstName := "John", lastName := "Doe",
    email := "john.doe@example.com", userType := "normal_user",
    isActive := true, emailVerified := true }

/-! Helper lemmas. -/

theorem applyNames_email (u : UserSvc.User) (d : UserSvc.UpdateData) :
    (UserSvc.applyNames u d).email = u.email := by
  unfold UserSvc.applyNames
  cases d.firstName <;> cases d.lastName <;> rfl

theorem applyNames_type (u : UserSvc.User) (d : UserSvc.UpdateData) :
    (UserSvc.applyNames u d).type = u.type := by
  unfold UserSvc.applyNames
  cases d.firstName <;> cases d.lastName <;> rfl

theorem applyNames_email_verified (u : UserSvc.User) (d : UserSvc.UpdateData) :
    (UserSvc.applyNames u d).email_verified = u.email_verified := by
  unfold UserSvc.applyNames
  cases d.firstName <;> cases d.lastName <;> rfl

theorem getById_replaceR (users : List Routes.RUser) (user_id : Nat)
    (u u1 : Routes.RUser) (h : Routes.getById users user_id = some u)
    (h1 : u1.userId = u.userId) :
    Routes.getById (Routes.replaceR users u1) user_id = some u1 := by
  unfold Routes.getById at h ⊢
  unfold Routes.replaceR
  have hpred : u.userId = user_id := by simpa using List.find?_some h
  induction users with
  | nil => simp at h
  | cons v vs ih =>
    by_cases hv : v.userId = user_id
    · have hvb : (v.userId == user_id) = true := beq_iff_eq.mpr hv
      simp only [List.find?_cons, hvb] at h
      have huv : v = u := by simpa using h
      simp [List.map_cons, List.find?_cons, huv, h1, hpred]
    · have hvb : (v.userId == user_id) = false :=
        beq_eq_false_iff_ne.mpr hv
      simp only [List.find?_cons, hvb] at h
      have hcond : (v.userId == u1.userId) = false :=
        beq_eq_false_iff_ne.mpr (by rw [h1, hpred]; exact hv)
      simp only [List.map_cons, hcond, Bool.false_eq_true, if_false,
        List.find?_cons, hvb]
      exact ih h

/-! Claim theorems. -/

/-- C1: the claim states that for a `super_admin` account the operations
ban, demote and delete each reject with Protected and leave every field
unchanged.  Evaluating the service methods at a `super_admin` account shows
otherwise: `ban_user` performs no role check and commits `active = false`
(mutating the record instead of rejecting), and `demote_from_admin` leaves
the record unchanged but returns the user with no rejection; only
`delete_user` rejects (`ValueError('Cannot delete super admin')`) and
leaves the record in place. -/
theorem c1_super_admin_ban_not_protected :
    UserSvc.ban_user [suUser] 1 =
      ([{ suUser with active := false }], some { suUser with active := false }) ∧
    ({ suUser with active := false }).active = false ∧
    UserSvc.demote_from_admin [suUser] 1 = ([suUser], some suUser) ∧
    UserSvc.delete_user [suUser] 1 = .error "Cannot delete super admin" := by
  refine ⟨rfl, rfl, ?_, ?_⟩ <;> rfl

/-- C3: verifying with a token whose expiry lies strictly in the past
returns Expired and leaves the whole store (in particular `emailVerified`)
untouched. -/
theorem c3_expired_token_rejected (users : List UserSvc.User)
    (user_id now exp : Nat) (u : UserSvc.User) (tok : String)
    (hu : UserSvc.get_user_by_id users user_id = some u)
    (htok : u.verification_token = some tok)
    (hexp : u.token_expires_at = some exp)
    (hpast : exp < now) :
    UserSvc.consume_verification users user_id tok now = (.expired, users) := by
  unfold UserSvc.consume_verification
  have h2 : ¬ now < exp := by omega
  simp only [hu]
  simp [htok, hexp, h2]

/-- Witness for C3 at a concrete expired token. -/
theorem c3_expired_token_rejected_witness :
    UserSvc.consume_verification [expUser] 9 "tok" 11 = (.expired, [expUser]) :=
  c3_expired_token_rejected [expUser] 9 11 10 expUser "tok" rfl rfl rfl
    (by decide)

/-- C4: the claim states that promoting an already-privileged target is
rejected with AlreadyPrivileged and the target's role is unchanged.
Evaluating the promote operation (the `require_super_admin` guard composed
with `UserService.promote_to_admin`) at a `super_admin` target shows the
method inspects no target role at all: it commits `type = 'admin'`,
silently demoting the `super_admin`. -/
theorem c4_promote_super_admin_demotes :
    UserSvc.promote_route "super_admin" [suUser] 1 =
      .ok ([{ suUser with type := "admin" }],
        some { suUser with type := "admin" }) ∧
    UserSvc.promote_route "normal" [suUser] 1 =
      .error "Super admin access required" := by
  exact ⟨rfl, rfl⟩

/-- C5: the claim states that when the outbound notification collaborator
fails, the request fails and no pending email-change entry remains stored.
Evaluating `request_email_update` with a failing send shows the handler
returns 500 but leaves the freshly stored pending entry in
`_email_verification_codes`. -/
theorem c5_pending_entry_left_on_send_failure :
    (Routes.request_email_update [johnR] [] 3 (some "new.addr@example.com")
        (fun _ => true) "123456" 1000 true).status = 500 ∧
    Routes.lookupCode
      (Routes.request_email_update [johnR] [] 3 (some "new.addr@example.com")
        (fun _ => true) "123456" 1000 true).codes 3 =
      some ⟨"new.addr@example.com", "123456", 1600⟩ := by
  constructor <;> decide

/-- C9: a stored verification token with no expiry timestamp is never
reported valid: `get_valid_verification_token` returns `(None, None)`. -/
theorem c9_token_without_expiry_not_valid (users : List UserSvc.User)
    (user_id now : Nat) (u : UserSvc.User) (tok : String)
    (hu : UserSvc.get_user_by_id users user_id = some u)
    (htok : u.verification_token = some tok)
    (hexp : u.token_expires_at = none) :
    UserSvc.get_valid_verification_token users user_id now = (none, none) := by
  unfold UserSvc.get_valid_verification_token
  simp only [hu]
  simp [htok, hexp]

/-- Witness for C9 at a concrete account. -/
theorem c9_token_without_expiry_not_valid_witness :
    UserSvc.get_valid_verification_token [tokenUser] 7 5 = (none, none) :=
  c9_token_without_expiry_not_valid [tokenUser] 7 5 tokenUser "tok"
    rfl rfl rfl

/-- C2 counterexample: a confirmed email change for an `admin` account with
a matching pending code succeeds (status 200) but resets the role to
`unverified` instead of keeping `admin`, and leaves `emailVerified` true
instead of forcing it to false. -/
theorem c2_confirm_resets_admin_role :
    Routes.confirm_email_update [adminR]
        [(2, ⟨"admin.new@forum.com", "222333", 500⟩)] 2
        (some "admin.new@forum.com") (some "222333") 100 true =
      ⟨200, "Email updated successfully. Please verify your new email address.",
        [{ adminR with email := "admin.new@forum.com", userType := "unverified" }],
        []⟩ ∧
    ({ adminR with
        email := "admin.new@forum.com",
        userType := "unverified" } : Routes.RUser).userType ≠ "admin" ∧
    ¬ ({ adminR with
        email := "admin.new@forum.com",
        userType := "unverified" } : Routes.RUser).emailVerified = false := by
  refine ⟨by decide, by decide, by decide⟩

/-- C2 (amended): in `UserService.update_user` a successful update whose
email actually changes forces `email_verified = false` and sets the role to
`unverified` exactly when the prior role is neither `admin` nor
`super_admin` (privileged roles are kept); the confirm-email-change route,
by contrast, always sets the committed account's role to `unverified`
(including for `admin` and `super_admin`) and does not touch
`emailVerified` (the committed record keeps every other field of the prior
account). -/
theorem c2_email_change_flags (users : List UserSvc.User) (user_id : Nat)
    (data : UserSvc.UpdateData) (u : UserSvc.User)
    (users1 : List UserSvc.User) (u1 : UserSvc.User)
    (rusers : List Routes.RUser) (codes : Routes.Codes) (rid : Nat)
    (ru : Routes.RUser) (nme vc : String) (now : Nat) (ok : Bool)
    (hu : UserSvc.get_user_by_id users user_id = some u)
    (hupd : UserSvc.update_user users user_id data = .ok (users1, some (u1, true)))
    (hru : Routes.getById rusers rid = some ru)
    (hconf : (Routes.confirm_email_update rusers codes rid (some nme)
        (some vc) now ok).status = 200) :
    (u1.email_verified = false ∧
      ((u.type = "admin" ∨ u.type = "super_admin") → u1.type = u.type) ∧
      (¬ (u.type = "admin" ∨ u.type = "super_admin") → u1.type = "unverified")) ∧
    Routes.getById (Routes.confirm_email_update rusers codes rid (some nme)
        (some vc) now ok).users rid =
      some { ru with email := nme, userType := "unverified" } := by
  constructor
  · unfold UserSvc.update_user at hupd
    simp only [hu] at hupd
    cases hde : data.email with
    | none =>
      simp only [hde] at hupd
      simp at hupd
    | some nme2 =>
      simp only [hde] at hupd
      split at hupd
      · exact Except.noConfusion hupd
      · split at hupd
        · simp only [Except.ok.injEq, Prod.mk.injEq, Option.some.injEq]
            at hupd
          obtain ⟨-, h2, -⟩ := hupd
          rw [← h2]
          simp only [applyNames_type]
          refine ⟨trivial, ?_, ?_⟩
          · intro hpv
            exact if_pos hpv
          · intro hpv
            exact if_neg hpv
        · simp at hupd
  · revert hconf
    unfold Routes.confirm_email_update
    simp only [hru]
    repeat' split
    all_goals intro hconf
    all_goals first
      | exact getById_replaceR rusers rid ru _ hru rfl
      | (exfalso; simp at hconf)

/-- Witness for C2 amended: a normal user's update with a fresh email, and
a concrete confirmed change, at concrete stores. -/
theorem c2_email_change_flags_witness :
    Routes.getById (Routes.confirm_email_update [johnR]
        [(3, ⟨"n@x.com", "111222", 500⟩)] 3 (some "n@x.com")
        (some "111222") 1 true).users 3 =
      some { johnR with email := "n@x.com", userType := "unverified" } :=
  (c2_email_change_flags [johnUser] 3 ⟨none, none, some "john.new@example.com"⟩
    johnUser
    [{ johnUser with
        email := "john.new@example.com",
        type := "unverified",
        email_verified := false }]
    { johnUser with
        email := "john.new@example.com",
        type := "unverified",
        email_verified := false }
    [johnR] [(3, ⟨"n@x.com", "111222", 500⟩)] 3 johnR "n@x.com" "111222" 1
    true rfl rfl rfl (by decide)).2

/-- C6 counterexample: the internal verify route applied to an `admin`
account overwrites the role with `normal_user` instead of preserving it,
and modifies nothing else (in particular it does not set any
email-verified flag or clear token state). -/
theorem c6_internal_verify_overwrites_admin :
    Routes.verify_user [adminR] 2 true =
      (200, [{ adminR with userType := "normal_user" }]) ∧
    ({ adminR with userType := "normal_user" } : Routes.RUser).userType
      ≠ "admin" := by
  refine ⟨by decide, by decide⟩

/-- C6 (amended): `UserService.verify_email` sets `email_verified = true`,
sets the role to `normal` exactly when the prior role was `unverified`
(preserving `admin` and `super_admin`), and clears both token fields so no
pending verification token remains; the internal verify route instead
unconditionally sets the committed account's role to `normal_user` and
changes no other field. -/
theorem c6_verify_email_success (users : List UserSvc.User) (user_id : Nat)
    (u : UserSvc.User) (rusers : List Routes.RUser) (rid : Nat)
    (ru : Routes.RUser)
    (hu : UserSvc.get_user_by_id users user_id = some u)
    (hru : Routes.getById rusers rid = some ru) :
    (UserSvc.verify_email users user_id).2 =
      some { u with
        email_verified := true,
        type := if u.type = "unverified" then "normal" else u.type,
        verification_token := none,
        token_expires_at := none } ∧
    Routes.getById (Routes.verify_user rusers rid true).2 rid =
      some { ru with userType := "normal_user" } := by
  constructor
  · unfold UserSvc.verify_email
    simp only [hu]
  · unfold Routes.verify_user
    simp only [hru]
    exact getById_replaceR rusers rid ru _ hru rfl

/-- Witness for C6 amended at concrete accounts. -/
theorem c6_verify_email_success_witness :
    (UserSvc.verify_email [expUser] 9).2 =
      some { expUser with
        email_verified := true,
        type := if expUser.type = "unverified" then "normal" else expUser.type,
        verification_token := none,
        token_expires_at := none } ∧
    Routes.getById (Routes.verify_user [adminR] 2 true).2 2 =
      some { adminR with userType := "normal_user" } :=
  c6_verify_email_success [expUser] 9 expUser [adminR] 2 adminR rfl rfl

theorem confirm_email_mismatch_eq (rusers : List Routes.RUser)
    (codes : Routes.Codes) (rid : Nat) (ru : Routes.RUser)
    (stored : Routes.Pending) (nme vc : String) (now : Nat) (ok : Bool)
    (hru : Routes.getById rusers rid = some ru)
    (hact : ru.isActive = true)
    (hc : Routes.lookupCode codes rid = some stored)
    (hnotexp : ¬ now > stored.expires_at)
    (hm : Routes.lower stored.new_email ≠ Routes.lower nme) :
    Routes.confirm_email_update rusers codes rid (some nme) (some vc)
        now ok =
      ⟨400, "Email does not match the pending request", rusers, codes⟩ := by
  unfold Routes.confirm_email_update
  simp only [hru]
  simp [hact, hc, hnotexp, hm]

theorem confirm_code_mismatch_eq (rusers : List Routes.RUser)
    (codes : Routes.Codes) (rid : Nat) (ru : Routes.RUser)
    (stored : Routes.Pending) (nme vc : String) (now : Nat) (ok : Bool)
    (hru : Routes.getById rusers rid = some ru)
    (hact : ru.isActive = true)
    (hc : Routes.lookupCode codes rid = some stored)
    (hnotexp : ¬ now > stored.expires_at)
    (hm : Routes.lower stored.new_email = Routes.lower nme)
    (hcm : stored.code ≠ vc) :
    Routes.confirm_email_update rusers codes rid (some nme) (some vc)
        now ok =
      ⟨400, "Invalid verification code", rusers, codes⟩ := by
  unfold Routes.confirm_email_update
  simp only [hru]
  simp [hact, hc, hnotexp, hm, hcm]

/-- C7: with a pending entry present and unexpired, a code mismatch (with
a case-insensitively matching email) yields the CodeMismatch response and
leaves the store and the pending map exactly as they were; an email
mismatch yields the EmailMismatch response, likewise changing nothing; and
a successful confirmation (status 200) occurs only when the supplied code
equals the stored one by exact string equality and the supplied email
equals the stored one case-insensitively, the committed record carrying
the supplied (case-insensitively the stored) address. -/
theorem c7_confirm_match_rules (rusers : List Routes.RUser)
    (codes : Routes.Codes) (rid : Nat) (ru : Routes.RUser)
    (stored : Routes.Pending) (nme vc : String) (now : Nat) (ok : Bool)
    (hru : Routes.getById rusers rid = some ru)
    (hact : ru.isActive = true)
    (hc : Routes.lookupCode codes rid = some stored)
    (hnotexp : ¬ now > stored.expires_at) :
    ((Routes.lower stored.new_email = Routes.lower nme ∧ stored.code ≠ vc) →
      Routes.confirm_email_update rusers codes rid (some nme) (some vc)
          now ok =
        ⟨400, "Invalid verification code", rusers, codes⟩) ∧
    (Routes.lower stored.new_email ≠ Routes.lower nme →
      Routes.confirm_email_update rusers codes rid (some nme) (some vc)
          now ok =
        ⟨400, "Email does not match the pending request", rusers, codes⟩) ∧
    ((Routes.confirm_email_update rusers codes rid (some nme) (some vc)
        now ok).status = 200 →
      stored.code = vc ∧
      Routes.lower stored.new_email = Routes.lower nme ∧
      Routes.getById (Routes.confirm_email_update rusers codes rid
          (some nme) (some vc) now ok).users rid =
        some { ru with email := nme, userType := "unverified" }) := by
  refine ⟨?_, ?_, ?_⟩
  · intro hpair
    exact confirm_code_mismatch_eq rusers codes rid ru stored nme vc now ok
      hru hact hc hnotexp hpair.1 hpair.2
  · intro hm
    exact confirm_email_mismatch_eq rusers codes rid ru stored nme vc now ok
      hru hact hc hnotexp hm
  · intro hs
    by_cases hmail : Routes.lower stored.new_email = Routes.lower nme
    · by_cases hcode : stored.code = vc
      · refine ⟨hcode, hmail, ?_⟩
        revert hs
        unfold Routes.confirm_email_update
        simp only [hru]
        simp only [hact, hc]
        simp only [hnotexp, hmail, hcode]
        repeat' split
        all_goals intro hs
        all_goals first
          | exact getById_replaceR rusers rid ru _ hru rfl
          | (exfalso; simp_all)
      · rw [confirm_code_mismatch_eq rusers codes rid ru stored nme vc now
          ok hru hact hc hnotexp hmail hcode] at hs
        simp at hs
    · rw [confirm_email_mismatch_eq rusers codes rid ru stored nme vc now
        ok hru hact hc hnotexp hmail] at hs
      simp at hs

/-- Witness for C7 at a concrete pending entry and a mismatching code. -/
theorem c7_confirm_match_rules_witness :
    ((Routes.lower "n@x.com" = Routes.lower "n@x.com" ∧
        "111222" ≠ "999999") →
      Routes.confirm_email_update [johnR] [(3, ⟨"n@x.com", "111222", 500⟩)]
          3 (some "n@x.com") (some "999999") 1 true =
        ⟨400, "Invalid verification code", [johnR],
          [(3, ⟨"n@x.com", "111222", 500⟩)]⟩) ∧
    (Routes.lower "n@x.com" ≠ Routes.lower "n@x.com" →
      Routes.confirm_email_update [johnR] [(3, ⟨"n@x.com", "111222", 500⟩)]
          3 (some "n@x.com") (some "999999") 1 true =
        ⟨400, "Email does not match the pending request", [johnR],
          [(3, ⟨"n@x.com", "111222", 500⟩)]⟩) ∧
    ((Routes.confirm_email_update [johnR] [(3, ⟨"n@x.com", "111222", 500⟩)]
        3 (some "n@x.com") (some "999999") 1 true).status = 200 →
      "111222" = "999999" ∧
      Routes.lower "n@x.com" = Routes.lower "n@x.com" ∧
      Routes.getById (Routes.confirm_email_update [johnR]
          [(3, ⟨"n@x.com", "111222", 500⟩)] 3 (some "n@x.com")
          (some "999999") 1 true).users 3 =
        some { johnR with email := "n@x.com", userType := "unverified" }) :=
  c7_confirm_match_rules [johnR] [(3, ⟨"n@x.com", "111222", 500⟩)] 3 johnR
    ⟨"n@x.com", "111222", 500⟩ "n@x.com" "999999" 1 true rfl rfl rfl
    (by decide)

/-- C8: whenever the confirm handler reports a persistence failure (its
500 response, produced exactly when `db.session.commit()` raises), the
account store and the pending map after the call equal their pre-call
values — the staged email/role change is rolled back and the pending entry
is not deleted — and retrying the identical request with a succeeding
commit returns 200. -/
theorem c8_commit_failure_rolls_back (rusers : List Routes.RUser)
    (codes : Routes.Codes) (rid : Nat) (nmeOpt vcOpt : Option String)
    (now : Nat) (ok : Bool)
    (h500 : (Routes.confirm_email_update rusers codes rid nmeOpt vcOpt now
        ok).status = 500) :
    (Routes.confirm_email_update rusers codes rid nmeOpt vcOpt now ok).users
        = rusers ∧
    (Routes.confirm_email_update rusers codes rid nmeOpt vcOpt now ok).codes
        = codes ∧
    (Routes.confirm_email_update rusers codes rid nmeOpt vcOpt now
        true).status = 200 := by
  revert h500
  unfold Routes.confirm_email_update
  repeat' split
  all_goals intro h500
  all_goals first
    | exact ⟨rfl, rfl, rfl⟩
    | (exfalso; simp at h500; done)
    | exact absurd rfl (by assumption)

/-- Witness for C8 at a concrete failing commit. -/
theorem c8_commit_failure_rolls_back_witness :
    (Routes.confirm_email_update [johnR] [(3, ⟨"n2@x.com", "654321", 900⟩)]
        3 (some "n2@x.com") (some "654321") 10 false).users = [johnR] ∧
    (Routes.confirm_email_update [johnR] [(3, ⟨"n2@x.com", "654321", 900⟩)]
        3 (some "n2@x.com") (some "654321") 10 false).codes =
      [(3, ⟨"n2@x.com", "654321", 900⟩)] ∧
    (Routes.confirm_email_update [johnR] [(3, ⟨"n2@x.com", "654321", 900⟩)]
        3 (some "n2@x.com") (some "654321") 10 true).status = 200 :=
  c8_commit_failure_rolls_back [johnR] [(3, ⟨"n2@x.com", "654321", 900⟩)]
    3 (some "n2@x.com") (some "654321") 10 false (by decide)

/-- C10: `update_user` compares the supplied email to the stored one by
exact string equality.  When they are character-for-character equal it
reports `email_changed = false` and commits a record whose email,
email-verified flag and role are those of the prior account (only the name
fields may differ); when they differ at all — including a difference only
in letter case — it takes the change branch, committing the supplied email
with `email_verified = false` and the role-reset rule applied under the
role the account already had. -/
theorem c10_exact_email_comparison (users : List UserSvc.User)
    (user_id : Nat) (data : UserSvc.UpdateData) (u : UserSvc.User)
    (e : String)
    (hu : UserSvc.get_user_by_id users user_id = some u)
    (he : data.email = some e)
    (huniq : ∀ v ∈ users, v.email = e → v.user_id = user_id) :
    (e = u.email →
      UserSvc.update_user users user_id data =
        .ok (UserSvc.replaceUser users (UserSvc.applyNames u data),
          some (UserSvc.applyNames u data, false)) ∧
      (UserSvc.applyNames u data).email = u.email ∧
      (UserSvc.applyNames u data).email_verified = u.email_verified ∧
      (UserSvc.applyNames u data).type = u.type) ∧
    (e ≠ u.email →
      UserSvc.update_user users user_id data =
        .ok (UserSvc.replaceUser users { UserSvc.applyNames u data with
            email := e,
            type := if (UserSvc.applyNames u data).type = "admin" ∨
                (UserSvc.applyNames u data).type = "super_admin"
              then (UserSvc.applyNames u data).type else "unverified",
            email_verified := false },
          some ({ UserSvc.applyNames u data with
            email := e,
            type := if (UserSvc.applyNames u data).type = "admin" ∨
                (UserSvc.applyNames u data).type = "super_admin"
              then (UserSvc.applyNames u data).type else "unverified",
            email_verified := false }, true)) ∧
      (UserSvc.applyNames u data).type = u.type) := by
  have htaken : (match UserSvc.get_user_by_email users e with
      | some existing => existing.user_id != user_id
      | none => false) = false := by
    cases hex : UserSvc.get_user_by_email users e with
    | none => rfl
    | some v =>
      have hmem : v ∈ users := by
        unfold UserSvc.get_user_by_email at hex
        exact List.mem_of_find?_eq_some hex
      have hpred : v.email = e := by
        unfold UserSvc.get_user_by_email at hex
        simpa using List.find?_some hex
      have hv := huniq v hmem hpred
      simp [hv]
  constructor
  · intro heq
    have hne : ¬ ((UserSvc.applyNames u data).email ≠ e) := by
      simp [applyNames_email, heq]
    refine ⟨?_, applyNames_email u data, applyNames_email_verified u data,
      applyNames_type u data⟩
    unfold UserSvc.update_user
    simp only [hu, he]
    simp [htaken, hne]
  · intro hneq
    have hne2 : (UserSvc.applyNames u data).email ≠ e := by
      rw [applyNames_email]
      exact fun hcontra => hneq hcontra.symm
    refine ⟨?_, applyNames_type u data⟩
    unfold UserSvc.update_user
    simp only [hu, he]
    simp [htaken, hne2]

/-- Witness for C10 at a concrete store: updating with the identical email
string. -/
theorem c10_exact_email_comparison_witness :
    ("john.doe@example.com" = johnUser.email →
      UserSvc.update_user [johnUser] 3
          ⟨some "Johnny", none, some "john.doe@example.com"⟩ =
        .ok (UserSvc.replaceUser [johnUser] (UserSvc.applyNames johnUser
            ⟨some "Johnny", none, some "john.doe@example.com"⟩),
          some (UserSvc.applyNames johnUser
            ⟨some "Johnny", none, some "john.doe@example.com"⟩, false)) ∧
      (UserSvc.applyNames johnUser
        ⟨some "Johnny", none, some "john.doe@example.com"⟩).email =
          johnUser.email ∧
      (UserSvc.applyNames johnUser
        ⟨some "Johnny", none, some "john.doe@example.com"⟩).email_verified =
          johnUser.email_verified ∧
      (UserSvc.applyNames johnUser
        ⟨some "Johnny", none, some "john.doe@example.com"⟩).type =
          johnUser.type) ∧
    ("john.doe@example.com" ≠ johnUser.email →
      UserSvc.update_user [johnUser] 3
          ⟨some "Johnny", none, some "john.doe@example.com"⟩ =
        .ok (UserSvc.replaceUser [johnUser]
            { UserSvc.applyNames johnUser
                ⟨some "Johnny", none, some "john.doe@example.com"⟩ with
              email := "john.doe@example.com",
              type := if (UserSvc.applyNames johnUser
                    ⟨some "Johnny", none, some "john.doe@example.com"⟩).type
                    = "admin" ∨
                  (UserSvc.applyNames johnUser
                    ⟨some "Johnny", none, some "john.doe@example.com"⟩).type
                    = "super_admin"
                then (UserSvc.applyNames johnUser
                  ⟨some "Johnny", none, some "john.doe@example.com"⟩).type
                else "unverified",
              email_verified := false },
          some ({ UserSvc.applyNames johnUser
                ⟨some "Johnny", none, some "john.doe@example.com"⟩ with
              email := "john.doe@example.com",
              type := if (UserSvc.applyNames johnUser
                    ⟨some "Johnny", none, some "john.doe@example.com"⟩).type
                    = "admin" ∨
                  (UserSvc.applyNames johnUser
                    ⟨some "Johnny", none, some "john.doe@example.com"⟩).type
                    = "super_admin"
                then (UserSvc.applyNames johnUser
                  ⟨some "Johnny", none, some "john.doe@example.com"⟩).type
                else "unverified",
              email_verified := false }, true)) ∧
      (UserSvc.applyNames johnUser
        ⟨some "Johnny", none, some "john.doe@example.com"⟩).type =
          johnUser.type) :=
  c10_exact_email_comparison [johnUser] 3
    ⟨some "Johnny", none, some "john.doe@example.com"⟩ johnUser
    "john.doe@example.com" rfl rfl (by decide)
